import Mathlib

set_option autoImplicit false

/-!
Shallow embedding of `src/wtf/replay/graphics/visualizer.js` from
inio/tracing-framework: the abstract `wtf.replay.graphics.Visualizer`
class (mutator registry plus pre/post event dispatch).

Modelling choices, all taken from the JavaScript source:

* A registry object is a list of own properties (name/value pairs).
  JavaScript property reads (`this.mutators[name]`) consult the
  prototype chain, and every object built here (`{}` literals and the
  result of `goog.object.clone`) has `Object.prototype` as its
  prototype, so `jsGet` falls back to the standard non-enumerable
  `Object.prototype` methods (`toString`, `constructor`, ...), which
  are truthy function values.
* Objects live in a `Store` (heap) and are referenced by index, so
  that `goog.object.clone` (a shallow copy into a fresh object) is
  distinguishable from aliasing; `registerMutator` mutates the store.
* `goog.asserts.assert` failure is modelled as `Except.error` carrying
  the assertion message (the source message quotes the name).
* Mutator callbacks are opaque values of a parameter type `κ`;
  dispatch does not run them, it returns the list of performed
  invocations (callback, `this`, context, arguments) in order.
-/

universe u

/-- A JavaScript value as it can flow through the mutator registry:
`undefined`, `null`, a mutator record `{pre: ..., post: ...}` whose two
fields hold an optional callback each (a missing field reads as
`undefined`), or a function inherited from `Object.prototype` (as
produced by a prototype-chain lookup such as `({})["toString"]`). -/
inductive JSVal (κ : Type) where
  | undefined : JSVal κ
  | null : JSVal κ
  | mutatorObj (preCb postCb : Option κ) : JSVal κ
  | protoFn (name : String) : JSVal κ
deriving Repr, DecidableEq

/-- JavaScript truthiness restricted to the values above: `undefined`
and `null` are falsy; objects and functions are truthy. -/
def JSVal.truthy {κ : Type} : JSVal κ → Bool
  | .undefined => false
  | .null => false
  | .mutatorObj _ _ => true
  | .protoFn _ => true

/-- Reading `.pre` off a value: defined on a mutator record, and
`undefined` (here `none`) on anything else, matching that function
objects and `null`/`undefined` have no `pre` property worth a call
(the source short-circuits on falsy values before the read). -/
def JSVal.preField {κ : Type} : JSVal κ → Option κ
  | .mutatorObj p _ => p
  | _ => none

/-- Reading `.post` off a value, symmetric to `JSVal.preField`. -/
def JSVal.postField {κ : Type} : JSVal κ → Option κ
  | .mutatorObj _ p => p
  | _ => none

/-- The own (enumerable) properties of a registry object. -/
abbrev JSObject (κ : Type) := List (String × JSVal κ)

/-- The standard method names every plain object inherits from
`Object.prototype`; they are non-enumerable (so `for...in` and hence
`goog.object.clone` skip them) but visible to plain property reads. -/
def OBJECT_PROTOTYPE_KEYS : List String :=
  ["constructor", "hasOwnProperty", "isPrototypeOf",
   "propertyIsEnumerable", "toLocaleString", "toString", "valueOf"]

/-- Own-property lookup: the value stored directly on the object, if
the key is present. -/
def getOwn {κ : Type} (o : JSObject κ) (name : String) : Option (JSVal κ) :=
  match o.find? (fun p => p.1 == name) with
  | some p => some p.2
  | none => none

/-- A JavaScript property read `o[name]`: the own property if present
(even when its stored value is `undefined`), otherwise the inherited
`Object.prototype` method of that name, otherwise `undefined`. -/
def jsGet {κ : Type} (o : JSObject κ) (name : String) : JSVal κ :=
  match getOwn o name with
  | some v => v
  | none => if name ∈ OBJECT_PROTOTYPE_KEYS then .protoFn name else .undefined

/-- A JavaScript property write `o[name] = v`: overwrites the own
property if present, otherwise adds it. -/
def setProp {κ : Type} (o : JSObject κ) (name : String) (v : JSVal κ) : JSObject κ :=
  match o with
  | [] => [(name, v)]
  | (k, w) :: rest => if k == name then (name, v) :: rest else (k, w) :: setProp rest name v

/-- The heap: registry objects addressed by allocation index. -/
structure Store (κ : Type) where
  objs : List (JSObject κ)
deriving Repr, DecidableEq

/-- Dereference an object id (out-of-range reads as the empty object;
all ids produced below are in range). -/
def Store.getObj {κ : Type} (s : Store κ) (i : Nat) : JSObject κ :=
  s.objs.getD i []

/-- Overwrite the object at an id. -/
def Store.setObj {κ : Type} (s : Store κ) (i : Nat) (o : JSObject κ) : Store κ :=
  ⟨s.objs.set i o⟩

/-- Allocate a fresh object, returning the new heap and the new id. -/
def Store.alloc {κ : Type} (s : Store κ) (o : JSObject κ) : Store κ × Nat :=
  (⟨s.objs ++ [o]⟩, s.objs.length)

/-- `goog.object.clone`: copies the enumerable own key/value pairs of
the source object into a freshly allocated object (the inherited
`Object.prototype` methods are non-enumerable and are not copied; the
clone reaches them through its own prototype chain instead). -/
def cloneObj {κ : Type} (s : Store κ) (i : Nat) : Store κ × Nat :=
  s.alloc (s.getObj i)

/-- The heap at module-load time: a single object, the process-wide
default table `wtf.replay.graphics.Visualizer.MUTATORS_ = {}`. -/
def initStore (κ : Type) : Store κ :=
  ⟨[[]]⟩

/-- The id of `wtf.replay.graphics.Visualizer.MUTATORS_` in `initStore`. -/
def MUTATORS_id : Nat := 0

/-- The fields of a `wtf.replay.graphics.Visualizer` instance:
the playback back-reference, the `active` flag, and the reference to
its instance-local `mutators` registry object in the heap. -/
structure Visualizer (π κ : Type) where
  playback : π
  active : Bool
  mutatorsId : Nat
deriving Repr, DecidableEq

/-- The constructor body, parametrised by the (dynamically dispatched)
`setupMutators` the instance's class provides: stores `playback`, sets
`active = false`, sets `this.mutators` to a shallow clone of the
default table, then calls `this.setupMutators()` once. -/
def mkVisualizerWith {π κ : Type} (s : Store κ) (defaultsId : Nat)
    (setupMutators : Store κ → Visualizer π κ → Store κ × Visualizer π κ)
    (playback : π) : Store κ × Visualizer π κ :=
  let cloned := cloneObj s defaultsId
  setupMutators cloned.1 { playback := playback, active := false, mutatorsId := cloned.2 }

/-- `goog.nullFunction`, the base-class `setupMutators`: a no-op. -/
def nullFunction {π κ : Type} (s : Store κ) (v : Visualizer π κ) : Store κ × Visualizer π κ :=
  (s, v)

/-- Construction of a base-class `Visualizer` (whose `setupMutators`
is `goog.nullFunction`) from the default table at `defaultsId`. -/
def mkVisualizer {π κ : Type} (s : Store κ) (defaultsId : Nat) (playback : π) :
    Store κ × Visualizer π κ :=
  mkVisualizerWith s defaultsId nullFunction playback

/-- `applyToSubStep`: `goog.nullFunction` in the base class. -/
def applyToSubStep {π κ : Type} (s : Store κ) (v : Visualizer π κ)
    (_optSubStepIndex : Option Nat) : Store κ × Visualizer π κ :=
  (s, v)

/-- `registerMutator(name, mutator)`: asserts that
`this.mutators[name]` is falsy (a truthy lookup is the duplicate
error), then stores `this.mutators[name] = mutator`.  The `Visualizer`
record itself is unchanged; only the heap object it references is. -/
def registerMutator {π κ : Type} (s : Store κ) (v : Visualizer π κ)
    (name : String) (mutator : JSVal κ) : Except String (Store κ) :=
  if (jsGet (s.getObj v.mutatorsId) name).truthy then
    .error ("A mutator named " ++ name ++ " already exists.")
  else
    .ok (s.setObj v.mutatorsId (setProp (s.getObj v.mutatorsId) name mutator))

/-- The slice of a `wtf.db.EventIterator` this class consumes:
`getName()` and `getArguments()` of the current event. -/
structure EventCursor (α : Type) where
  name : String
  args : α
deriving Repr, DecidableEq

/-- A recorded callback invocation `cb.call(null, this, gl,
it.getArguments())`: which callback ran, and the three arguments it
received. -/
structure Call (π κ γ α : Type) where
  callback : κ
  self : Visualizer π κ
  context : γ
  args : α
deriving Repr, DecidableEq

/-- `handlePreEvent(it, gl)`: returns immediately when inactive;
otherwise looks up the event name in the registry and, when the
lookup is truthy and has a truthy `pre`, invokes it with
`(this, gl, it.getArguments())`.  Returns the (unchanged) heap and
instance together with the invocations performed. -/
def handlePreEvent {π κ γ α : Type} (s : Store κ) (v : Visualizer π κ)
    (it : EventCursor α) (gl : γ) : Store κ × Visualizer π κ × List (Call π κ γ α) :=
  if !v.active then (s, v, [])
  else
    let associatedFunction := jsGet (s.getObj v.mutatorsId) it.name
    if associatedFunction.truthy then
      match associatedFunction.preField with
      | some f => (s, v, [{ callback := f, self := v, context := gl, args := it.args }])
      | none => (s, v, [])
    else (s, v, [])

/-- `handlePostEvent(it, gl)`: symmetric to `handlePreEvent`,
dispatching the `post` callback. -/
def handlePostEvent {π κ γ α : Type} (s : Store κ) (v : Visualizer π κ)
    (it : EventCursor α) (gl : γ) : Store κ × Visualizer π κ × List (Call π κ γ α) :=
  if !v.active then (s, v, [])
  else
    let associatedFunction := jsGet (s.getObj v.mutatorsId) it.name
    if associatedFunction.truthy then
      match associatedFunction.postField with
      | some f => (s, v, [{ callback := f, self := v, context := gl, args := it.args }])
      | none => (s, v, [])
    else (s, v, [])

/-- Which of the two dispatch entry points the playback driver calls. -/
inductive DispatchKind where
  | preEvent : DispatchKind
  | postEvent : DispatchKind
deriving Repr, DecidableEq

/-- One driver call to `handlePreEvent` or `handlePostEvent`. -/
def dispatchOne {π κ γ α : Type} (s : Store κ) (v : Visualizer π κ)
    (d : DispatchKind × EventCursor α × γ) : Store κ × Visualizer π κ × List (Call π κ γ α) :=
  match d.1 with
  | .preEvent => handlePreEvent s v d.2.1 d.2.2
  | .postEvent => handlePostEvent s v d.2.1 d.2.2

/-- A sequence of driver dispatch calls, threading heap and instance
and concatenating the callback invocations in order. -/
def runDispatches {π κ γ α : Type} (s : Store κ) (v : Visualizer π κ) :
    List (DispatchKind × EventCursor α × γ) → Store κ × Visualizer π κ × List (Call π κ γ α)
  | [] => (s, v, [])
  | d :: ds =>
    let r := dispatchOne s v d
    let rest := runDispatches r.1 r.2.1 ds
    (rest.1, rest.2.1, r.2.2 ++ rest.2.2)

/-! ### Helper lemmas about list indexing and registry objects -/

theorem getD_concat_length {A : Type} (l : List A) (a d : A) :
    (l ++ [a]).getD l.length d = a := by
  induction l with
  | nil => rfl
  | cons x xs ih => simp [List.getD]

theorem getD_append_lt {A : Type} (l : List A) (a d : A) (i : Nat) (h : i < l.length) :
    (l ++ [a]).getD i d = l.getD i d := by
  induction l generalizing i with
  | nil => simp at h
  | cons x xs ih =>
    cases i with
    | zero => rfl
    | succ j => simpa [List.getD] using ih j (by simpa using h)

theorem getD_set_self {A : Type} (l : List A) (i : Nat) (a d : A) (h : i < l.length) :
    (l.set i a).getD i d = a := by
  induction l generalizing i with
  | nil => simp at h
  | cons x xs ih =>
    cases i with
    | zero => rfl
    | succ j => simpa [List.getD] using ih j (by simpa using h)

theorem getD_set_ne {A : Type} (l : List A) (i j : Nat) (a d : A) (h : i ≠ j) :
    (l.set i a).getD j d = l.getD j d := by
  induction l generalizing i j with
  | nil => rfl
  | cons x xs ih =>
    cases i with
    | zero =>
      cases j with
      | zero => exact absurd rfl h
      | succ jj => rfl
    | succ ii =>
      cases j with
      | zero => rfl
      | succ jj => simpa [List.getD] using ih ii jj (by omega)

theorem length_set {A : Type} (l : List A) (i : Nat) (a : A) :
    (l.set i a).length = l.length := by
  simp

theorem getOwn_setProp_self {κ : Type} (o : JSObject κ) (n : String) (v : JSVal κ) :
    getOwn (setProp o n v) n = some v := by
  induction o with
  | nil => simp [setProp, getOwn, List.find?]
  | cons p rest ih =>
    by_cases hk : p.1 = n
    · simp [setProp, hk, getOwn, List.find?]
    · simpa [setProp, hk, getOwn, List.find?] using ih

theorem mkVisualizer_fst {π κ : Type} (s : Store κ) (did : Nat) (pb : π) :
    (mkVisualizer s did pb).1 = ⟨s.objs ++ [s.getObj did]⟩ := rfl

theorem mkVisualizer_snd {π κ : Type} (s : Store κ) (did : Nat) (pb : π) :
    (mkVisualizer s did pb).2
      = { playback := pb, active := false, mutatorsId := s.objs.length } := rfl

/-! ### Claim theorems -/

/-- Claim C1: for every Visualizer instance and every event name
already bound to a mutator entry in that instance's registry, a
further `registerMutator` call with that name fails the duplicate
assertion, for every mutator value supplied (identical to the stored
one or not); the registration is never silently accepted. -/
theorem registerMutator_duplicate_fails {π κ : Type} (s : Store κ) (v : Visualizer π κ)
    (n : String) (preCb postCb : Option κ) (m : JSVal κ)
    (h : getOwn (s.getObj v.mutatorsId) n = some (JSVal.mutatorObj preCb postCb)) :
    registerMutator s v n m = .error ("A mutator named " ++ n ++ " already exists.") := by
  simp [registerMutator, jsGet, h, JSVal.truthy]

/-- Witness for C1: a registry holding an entry under the name
drawArrays rejects a second registration of the identical value. -/
theorem registerMutator_duplicate_fails_witness :
    registerMutator (π := Unit) (κ := Nat)
        ⟨[[("drawArrays", JSVal.mutatorObj (some 1) none)]]⟩
        { playback := (), active := false, mutatorsId := 0 }
        "drawArrays" (JSVal.mutatorObj (some 1) none)
      = .error ("A mutator named " ++ "drawArrays" ++ " already exists.") :=
  registerMutator_duplicate_fails _ _ _ (some 1) none _ rfl

/-- Claim C2: while `active` is false, any sequence of
`handlePreEvent`/`handlePostEvent` calls, over any event cursors and
contexts, invokes no callback and leaves heap and instance unchanged. -/
theorem inactive_dispatch_noop {π κ γ α : Type} (s : Store κ) (v : Visualizer π κ)
    (ds : List (DispatchKind × EventCursor α × γ)) (h : v.active = false) :
    runDispatches s v ds = (s, v, []) := by
  induction ds with
  | nil => rfl
  | cons d ds ih =>
    have hd : dispatchOne s v d = (s, v, []) := by
      rcases d with ⟨k, it, gl⟩
      cases k <;> simp [dispatchOne, handlePreEvent, handlePostEvent, h]
    simp [runDispatches, hd, ih]

/-- Witness for C2: an inactive instance absorbs a pre and a post
dispatch of an event whose name is registered, invoking nothing. -/
theorem inactive_dispatch_noop_witness :
    runDispatches (π := Unit) (κ := Nat) (γ := Option Unit) (α := Nat)
        ⟨[[("drawArrays", JSVal.mutatorObj (some 1) (some 2))]]⟩
        { playback := (), active := false, mutatorsId := 0 }
        [(DispatchKind.preEvent, { name := "drawArrays", args := 7 }, none),
         (DispatchKind.postEvent, { name := "drawArrays", args := 7 }, none)]
      = (⟨[[("drawArrays", JSVal.mutatorObj (some 1) (some 2))]]⟩,
         { playback := (), active := false, mutatorsId := 0 }, []) :=
  inactive_dispatch_noop _ _ _ rfl

/-- Claim C3: on an active instance whose registry resolves the event
name to an entry with no `pre` and a `post` callback, `handlePreEvent`
invokes nothing and `handlePostEvent` invokes the `post` callback
exactly once, with exactly (this instance, the supplied context, the
cursor's arguments). -/
theorem postOnly_dispatch {π κ γ α : Type} (s : Store κ) (v : Visualizer π κ)
    (it : EventCursor α) (gl : γ) (g : κ)
    (ha : v.active = true)
    (hm : jsGet (s.getObj v.mutatorsId) it.name = JSVal.mutatorObj none (some g)) :
    handlePreEvent s v it gl = (s, v, [])
    ∧ handlePostEvent s v it gl
        = (s, v, [{ callback := g, self := v, context := gl, args := it.args }]) := by
  constructor <;>
    simp [handlePreEvent, handlePostEvent, ha, hm, JSVal.truthy, JSVal.preField, JSVal.postField]

/-- Witness for C3: a post-only entry under the name finish on an
active instance yields no pre invocation and one post invocation. -/
theorem postOnly_dispatch_witness :
    handlePreEvent (π := Unit) (κ := Nat) (γ := Option Unit) (α := Nat)
        ⟨[[("finish", JSVal.mutatorObj none (some 2))]]⟩
        { playback := (), active := true, mutatorsId := 0 }
        { name := "finish", args := 7 } none
      = (⟨[[("finish", JSVal.mutatorObj none (some 2))]]⟩,
         { playback := (), active := true, mutatorsId := 0 }, [])
    ∧ handlePostEvent (π := Unit) (κ := Nat) (γ := Option Unit) (α := Nat)
        ⟨[[("finish", JSVal.mutatorObj none (some 2))]]⟩
        { playback := (), active := true, mutatorsId := 0 }
        { name := "finish", args := 7 } none
      = (⟨[[("finish", JSVal.mutatorObj none (some 2))]]⟩,
         { playback := (), active := true, mutatorsId := 0 },
         [{ callback := 2, self := { playback := (), active := true, mutatorsId := 0 },
            context := none, args := 7 }]) :=
  postOnly_dispatch _ _ _ _ 2 rfl rfl

/-- Claim C5: on an active instance, dispatching an event whose name
has no mutator registered in the instance's registry invokes no
callback and raises no error (the functions are total and return
normally): both entry points are no-ops. -/
theorem unregistered_dispatch_noop {π κ γ α : Type} (s : Store κ) (v : Visualizer π κ)
    (it : EventCursor α) (gl : γ)
    (ha : v.active = true)
    (h : getOwn (s.getObj v.mutatorsId) it.name = none) :
    handlePreEvent s v it gl = (s, v, []) ∧ handlePostEvent s v it gl = (s, v, []) := by
  have hj : jsGet (s.getObj v.mutatorsId) it.name
      = (if it.name ∈ OBJECT_PROTOTYPE_KEYS then .protoFn it.name else .undefined) := by
    simp [jsGet, h]
  by_cases hp : it.name ∈ OBJECT_PROTOTYPE_KEYS <;>
    constructor <;>
      simp [handlePreEvent, handlePostEvent, ha, hj, hp,
        JSVal.truthy, JSVal.preField, JSVal.postField]

/-- Witness for C5: dispatching an unknown event name on an active
instance with an empty registry performs no invocation. -/
theorem unregistered_dispatch_noop_witness :
    handlePreEvent (π := Unit) (κ := Nat) (γ := Option Unit) (α := Nat)
        ⟨[[]]⟩ { playback := (), active := true, mutatorsId := 0 }
        { name := "unknown", args := 3 } none
      = (⟨[[]]⟩, { playback := (), active := true, mutatorsId := 0 }, [])
    ∧ handlePostEvent (π := Unit) (κ := Nat) (γ := Option Unit) (α := Nat)
        ⟨[[]]⟩ { playback := (), active := true, mutatorsId := 0 }
        { name := "unknown", args := 3 } none
      = (⟨[[]]⟩, { playback := (), active := true, mutatorsId := 0 }, []) :=
  unregistered_dispatch_noop _ _ _ _ rfl rfl

/-- Counterexample to claim C4 as stated: the name toString is not
present in the (empty) default table, yet `registerMutator` on a
freshly constructed instance fails the duplicate assertion, because
the lookup finds the inherited `Object.prototype.toString`, which is
truthy. -/
theorem fresh_register_toString_fails :
    getOwn (((mkVisualizer (initStore Nat) MUTATORS_id ()).1).getObj
        (mkVisualizer (initStore Nat) MUTATORS_id ()).2.mutatorsId) "toString" = none
    ∧ registerMutator (π := Unit) (mkVisualizer (initStore Nat) MUTATORS_id ()).1
        (mkVisualizer (initStore Nat) MUTATORS_id ()).2 "toString"
        (JSVal.mutatorObj (some 1) none)
      = .error ("A mutator named " ++ "toString" ++ " already exists.") :=
  ⟨rfl, rfl⟩

/-- Claim C4 (amended): for every event name not present in the
default table and not an inherited `Object.prototype` property name,
`registerMutator` on a freshly constructed instance succeeds, and a
subsequent lookup of the name in that instance's registry returns
exactly the registered mutator. -/
theorem fresh_register_nonproto_succeeds {π κ : Type} (s : Store κ) (did : Nat) (pb : π)
    (n : String) (m : JSVal κ)
    (hn1 : getOwn (s.getObj did) n = none)
    (hn2 : n ∉ OBJECT_PROTOTYPE_KEYS) :
    ∃ s1, registerMutator (mkVisualizer s did pb).1 (mkVisualizer s did pb).2 n m = .ok s1
      ∧ getOwn (s1.getObj (mkVisualizer s did pb).2.mutatorsId) n = some m := by
  have hreg : ((mkVisualizer s did pb).1).getObj (mkVisualizer s did pb).2.mutatorsId
      = s.getObj did := by
    rw [mkVisualizer_fst, mkVisualizer_snd]
    exact getD_concat_length _ _ _
  refine ⟨((mkVisualizer s did pb).1).setObj (mkVisualizer s did pb).2.mutatorsId
      (setProp (((mkVisualizer s did pb).1).getObj (mkVisualizer s did pb).2.mutatorsId) n m),
    ?_, ?_⟩
  · simp [registerMutator, hreg, jsGet, hn1, hn2, JSVal.truthy]
  · have hlen : (mkVisualizer s did pb).2.mutatorsId
        < ((mkVisualizer s did pb).1).objs.length := by
      rw [mkVisualizer_fst, mkVisualizer_snd]
      simp
    simp only [Store.setObj, Store.getObj]
    rw [getD_set_self _ _ _ _ hlen]
    exact getOwn_setProp_self _ _ _

/-- Witness for the amended C4: registering under drawArrays on an
instance freshly constructed from the empty default table succeeds
and the registered mutator is what a lookup then returns. -/
theorem fresh_register_nonproto_succeeds_witness :
    ∃ s1, registerMutator (π := Unit) (κ := Nat)
        (mkVisualizer (initStore Nat) MUTATORS_id ()).1
        (mkVisualizer (initStore Nat) MUTATORS_id ()).2
        "drawArrays" (JSVal.mutatorObj (some 1) none) = .ok s1
      ∧ getOwn (s1.getObj (mkVisualizer (initStore Nat) MUTATORS_id ()).2.mutatorsId)
          "drawArrays" = some (JSVal.mutatorObj (some 1) none) :=
  fresh_register_nonproto_succeeds (initStore Nat) MUTATORS_id () "drawArrays"
    (JSVal.mutatorObj (some 1) none) rfl (by decide)

/-- Claim C6: with two instances A and B constructed in sequence from
the same default table, a successful registration on A leaves B's
registry object and the shared default table exactly as they were: the
new name does not become resolvable through B, and the defaults are
untouched. -/
theorem registry_isolation {π κ : Type} (s0 : Store κ) (did : Nat) (pb1 pb2 : π)
    (n : String) (m : JSVal κ) (s3 : Store κ)
    (hdid : did < s0.objs.length)
    (hreg : registerMutator (mkVisualizer (mkVisualizer s0 did pb1).1 did pb2).1
              (mkVisualizer s0 did pb1).2 n m = .ok s3) :
    s3.getObj (mkVisualizer (mkVisualizer s0 did pb1).1 did pb2).2.mutatorsId
      = (mkVisualizer (mkVisualizer s0 did pb1).1 did pb2).1.getObj
          (mkVisualizer (mkVisualizer s0 did pb1).1 did pb2).2.mutatorsId
    ∧ s3.getObj did = s0.getObj did := by
  have hA : (mkVisualizer s0 did pb1).2.mutatorsId = s0.objs.length := rfl
  have hB : (mkVisualizer (mkVisualizer s0 did pb1).1 did pb2).2.mutatorsId
      = s0.objs.length + 1 := by
    rw [mkVisualizer_snd, mkVisualizer_fst]
    simp
  have hlen1 : did < ((mkVisualizer s0 did pb1).1).objs.length := by
    rw [mkVisualizer_fst]
    simp
    omega
  unfold registerMutator at hreg
  split at hreg
  · exact absurd hreg (by simp)
  · injection hreg with hs3
    subst hs3
    constructor
    · simp only [Store.setObj, Store.getObj]
      exact getD_set_ne _ _ _ _ _ (by rw [hA, hB]; omega)
    · have hstep1 : ((mkVisualizer s0 did pb1).1).getObj did = s0.getObj did := by
        rw [mkVisualizer_fst]
        exact getD_append_lt _ _ _ _ hdid
      have hstep : ((mkVisualizer (mkVisualizer s0 did pb1).1 did pb2).1).getObj did
          = s0.getObj did := by
        rw [mkVisualizer_fst (mkVisualizer s0 did pb1).1]
        exact Eq.trans (getD_append_lt _ _ _ _ hlen1) hstep1
      refine Eq.trans ?_ hstep
      simp only [Store.setObj, Store.getObj]
      exact getD_set_ne _ _ _ _ _ (by rw [hA]; omega)

/-- Witness for C6: with a one-entry default table, registering
stripe on the first of two freshly constructed instances leaves the
second instance's registry and the default table unchanged. -/
theorem registry_isolation_witness :
    (⟨[[("draw", JSVal.mutatorObj (some 1) none)],
       [("draw", JSVal.mutatorObj (some 1) none), ("stripe", JSVal.mutatorObj none (some 2))],
       [("draw", JSVal.mutatorObj (some 1) none)]]⟩ : Store Nat).getObj
        (mkVisualizer (π := Unit)
          (mkVisualizer (π := Unit)
            (⟨[[("draw", JSVal.mutatorObj (some 1) none)]]⟩ : Store Nat) 0 ()).1 0 ()).2.mutatorsId
      = (mkVisualizer (π := Unit)
          (mkVisualizer (π := Unit)
            (⟨[[("draw", JSVal.mutatorObj (some 1) none)]]⟩ : Store Nat) 0 ()).1 0 ()).1.getObj
          (mkVisualizer (π := Unit)
            (mkVisualizer (π := Unit)
              (⟨[[("draw", JSVal.mutatorObj (some 1) none)]]⟩ : Store Nat) 0 ()).1 0 ()).2.mutatorsId
    ∧ (⟨[[("draw", JSVal.mutatorObj (some 1) none)],
         [("draw", JSVal.mutatorObj (some 1) none), ("stripe", JSVal.mutatorObj none (some 2))],
         [("draw", JSVal.mutatorObj (some 1) none)]]⟩ : Store Nat).getObj 0
      = (⟨[[("draw", JSVal.mutatorObj (some 1) none)]]⟩ : Store Nat).getObj 0 :=
  registry_isolation (⟨[[("draw", JSVal.mutatorObj (some 1) none)]]⟩ : Store Nat) 0 () ()
    "stripe" (JSVal.mutatorObj none (some 2)) _ (by decide) rfl

/-- Claim C7: construction runs the `setupMutators` hook exactly once,
on the state whose `active` flag is false and whose registry has just
been seeded with a clone of the default table (the construction result
is literally one application of the hook to that seeded state); the
seeded registry's contents equal the default table's, and for the base
class (no-op hook) the constructed instance has `active = false` and a
registry equal to the clone of the defaults. -/
theorem construction_contract {π κ : Type} (s : Store κ) (did : Nat) (pb : π)
    (setupMutators : Store κ → Visualizer π κ → Store κ × Visualizer π κ) :
    mkVisualizerWith s did setupMutators pb
      = setupMutators (cloneObj s did).1
          { playback := pb, active := false, mutatorsId := (cloneObj s did).2 }
    ∧ (cloneObj s did).1.getObj (cloneObj s did).2 = s.getObj did
    ∧ (mkVisualizer s did pb).2.active = false
    ∧ (mkVisualizer s did pb).1.getObj (mkVisualizer s did pb).2.mutatorsId
        = s.getObj did := by
  refine ⟨rfl, ?_, rfl, ?_⟩ <;> exact getD_concat_length _ _ _

/-- Claim C8: `handlePreEvent` and `handlePostEvent` themselves leave
the heap (hence the instance's registry object) and the instance
record (hence its `active` flag) exactly as they were, for every
input. -/
theorem dispatch_frame {π κ γ α : Type} (s : Store κ) (v : Visualizer π κ)
    (it : EventCursor α) (gl : γ) :
    (handlePreEvent s v it gl).1 = s ∧ (handlePreEvent s v it gl).2.1 = v
    ∧ (handlePostEvent s v it gl).1 = s ∧ (handlePostEvent s v it gl).2.1 = v := by
  refine ⟨?_, ?_, ?_, ?_⟩ <;>
  · simp only [handlePreEvent, handlePostEvent]
    repeat' split
    all_goals rfl

/-- Claim C9: because the duplicate check tests truthiness of a plain
property read, every inherited `Object.prototype` method name fails
the duplicate assertion on a fresh instance built from the empty
default table, even though nothing was ever registered under it (the
own-property lookup is `none`). -/
theorem protoKey_register_fails {π κ : Type} (pb : π) (name : String) (m : JSVal κ)
    (h : name ∈ OBJECT_PROTOTYPE_KEYS) :
    getOwn (((mkVisualizer (initStore κ) MUTATORS_id pb).1).getObj
        (mkVisualizer (initStore κ) MUTATORS_id pb).2.mutatorsId) name = none
    ∧ registerMutator (mkVisualizer (initStore κ) MUTATORS_id pb).1
        (mkVisualizer (initStore κ) MUTATORS_id pb).2 name m
      = .error ("A mutator named " ++ name ++ " already exists.") := by
  have hempty : ((mkVisualizer (initStore κ) MUTATORS_id pb).1).getObj
      (mkVisualizer (initStore κ) MUTATORS_id pb).2.mutatorsId = [] := rfl
  constructor
  · rw [hempty]
    rfl
  · simp [registerMutator, hempty, jsGet, getOwn, h, JSVal.truthy]

/-- Witness for C9: registering under toString on a fresh instance
with the empty default table hits the duplicate assertion. -/
theorem protoKey_register_fails_witness :
    getOwn (((mkVisualizer (π := Unit) (initStore Nat) MUTATORS_id ()).1).getObj
        (mkVisualizer (π := Unit) (initStore Nat) MUTATORS_id ()).2.mutatorsId)
        "toString" = none
    ∧ registerMutator (mkVisualizer (π := Unit) (initStore Nat) MUTATORS_id ()).1
        (mkVisualizer (π := Unit) (initStore Nat) MUTATORS_id ()).2 "toString"
        (JSVal.mutatorObj none (some 4))
      = .error ("A mutator named " ++ "toString" ++ " already exists.") :=
  protoKey_register_fails () "toString" (JSVal.mutatorObj none (some 4)) (by decide)

/-- Claim C10: a falsy mutator value (here `null`) is stored by
`registerMutator` without complaint, and a second registration under
the same name does not trigger the duplicate assertion and silently
overwrites the stored entry: the fail-fast uniqueness guarantee relies
on registered mutator values being truthy. -/
theorem falsy_mutator_silent_overwrite {π κ : Type} (s : Store κ) (v : Visualizer π κ)
    (n : String) (m2 : JSVal κ)
    (hid : v.mutatorsId < s.objs.length)
    (h : (jsGet (s.getObj v.mutatorsId) n).truthy = false) :
    ∃ s1, registerMutator s v n JSVal.null = .ok s1
      ∧ getOwn (s1.getObj v.mutatorsId) n = some JSVal.null
      ∧ ∃ s2, registerMutator s1 v n m2 = .ok s2
        ∧ getOwn (s2.getObj v.mutatorsId) n = some m2 := by
  have hget1 : (s.setObj v.mutatorsId
        (setProp (s.getObj v.mutatorsId) n JSVal.null)).getObj v.mutatorsId
      = setProp (s.getObj v.mutatorsId) n JSVal.null := by
    simp only [Store.setObj, Store.getObj]
    exact getD_set_self _ _ _ _ hid
  refine ⟨s.setObj v.mutatorsId (setProp (s.getObj v.mutatorsId) n JSVal.null), ?_, ?_, ?_⟩
  · simp [registerMutator, h]
  · rw [hget1]
    exact getOwn_setProp_self _ _ _
  · have hfalsy : (jsGet ((s.setObj v.mutatorsId
          (setProp (s.getObj v.mutatorsId) n JSVal.null)).getObj v.mutatorsId) n).truthy
        = false := by
      rw [hget1]
      simp [jsGet, getOwn_setProp_self, JSVal.truthy]
    have hid1 : v.mutatorsId
        < (s.setObj v.mutatorsId
            (setProp (s.getObj v.mutatorsId) n JSVal.null)).objs.length := by
      simpa [Store.setObj] using hid
    refine ⟨(s.setObj v.mutatorsId
        (setProp (s.getObj v.mutatorsId) n JSVal.null)).setObj v.mutatorsId
          (setProp ((s.setObj v.mutatorsId
              (setProp (s.getObj v.mutatorsId) n JSVal.null)).getObj v.mutatorsId) n m2),
      ?_, ?_⟩
    · simp [registerMutator, hfalsy]
    · have hget2 : ((s.setObj v.mutatorsId
            (setProp (s.getObj v.mutatorsId) n JSVal.null)).setObj v.mutatorsId
          (setProp ((s.setObj v.mutatorsId
              (setProp (s.getObj v.mutatorsId) n JSVal.null)).getObj v.mutatorsId)
            n m2)).getObj v.mutatorsId
          = setProp ((s.setObj v.mutatorsId
              (setProp (s.getObj v.mutatorsId) n JSVal.null)).getObj v.mutatorsId) n m2 := by
        simp only [Store.setObj, Store.getObj]
        exact getD_set_self _ _ _ _ (by simpa [Store.setObj] using hid1)
      rw [hget2]
      exact getOwn_setProp_self _ _ _

/-- Witness for C10: on a fresh empty registry, registering null under
drawArrays succeeds, and registering a real mutator under the same
name then succeeds too, silently replacing the stored null. -/
theorem falsy_mutator_silent_overwrite_witness :
    ∃ s1, registerMutator (π := Unit) (κ := Nat) (⟨[[]]⟩ : Store Nat)
        { playback := (), active := false, mutatorsId := 0 } "drawArrays" JSVal.null
        = .ok s1
      ∧ getOwn (s1.getObj 0) "drawArrays" = some JSVal.null
      ∧ ∃ s2, registerMutator (π := Unit)
            s1 { playback := (), active := false, mutatorsId := 0 } "drawArrays"
            (JSVal.mutatorObj (some 9) none) = .ok s2
        ∧ getOwn (s2.getObj 0) "drawArrays" = some (JSVal.mutatorObj (some 9) none) :=
  falsy_mutator_silent_overwrite (⟨[[]]⟩ : Store Nat)
    { playback := (), active := false, mutatorsId := 0 } "drawArrays"
    (JSVal.mutatorObj (some 9) none) (by decide) (by decide)
